import Mathlib

/-!
Shallow embedding of the signal-to-order decision core of the AI_trade
repository, together with theorems checking the specification's claims
against it.

The embedded code lives in:
* `src/Redundant/realtime_macd_trader.py` — the `RealTimeMACDTrader` class
  (trading-decision policy `process_macd_signal`, session predicates
  `is_market_hours` / `is_pre_market` / `is_after_hours` / `is_overnight`,
  and the order-placement routine `place_order`);
* `src/broker_selector.py` — the `BrokerSelector` / `UnifiedTradingSystem`
  classes (delegated broker operations, `switch_to_broker`,
  `get_realtime_data`, `_execute_ibkr_signal`, and the per-symbol body of
  `_run_ibkr_continuous_strategy`).

Machine reals are modelled by `ℚ`; opaque payloads (account blobs, order
ids, data frames) by `Nat` tokens or `List ℚ`; a Python call that may
return `None` by `Option`; a call that may raise by `Except`.
-/

namespace AITrade

/-! ## Data model -/

/-- Order side, mirroring `alpaca.trading.enums.OrderSide`. -/
inductive Side
  | buy
  | sell
  deriving DecidableEq, Repr

/-- Broker position side, the strings `"NONE" / "LONG" / "SHORT"` used by
`get_current_position` in `realtime_macd_trader.py`. -/
inductive PosSide
  | NONE
  | LONG
  | SHORT
  deriving DecidableEq, Repr

/-- MACD-relative position, the strings `"ABOVE" / "BELOW"` carried in the
quote monitor's signal dict (`None` when the indicator is not warm). -/
inductive MacdPos
  | ABOVE
  | BELOW
  deriving DecidableEq, Repr

/-- Trade action strings produced by `process_macd_signal`
(`"BUY"` / `"SELL"`). -/
inductive TAction
  | BUY
  | SELL
  deriving DecidableEq, Repr

/-- The fields of the dict returned by `quote_monitor.get_macd_signal()`
that `process_macd_signal` consults. -/
structure MacdSignal where
  macd_position : Option MacdPos
  crossover : Bool
  crossunder : Bool
  deriving DecidableEq, Repr

/-- In-memory trading state of `RealTimeMACDTrader`
(`self.position_type`, `self.position_shares`, `self.last_action`,
`self.last_signal_time`); `last_signal_time` is an opaque timestamp token. -/
structure TradingState where
  position_type : PosSide
  position_shares : Int
  last_action : Option TAction
  last_signal_time : Option Nat
  deriving DecidableEq, Repr

/-! ## Trading decision policy (`process_macd_signal`, lines 402–445) -/

/-- The action/quantity decision embedded from the body of
`RealTimeMACDTrader.process_macd_signal`
(`src/Redundant/realtime_macd_trader.py`, lines 402–445): given the current
broker position side and quantity, the MACD signal state, the last action
taken and the configured shares per trade, it returns the order action
(`none` = HOLD) and the quantity.  Python's
`not self.last_action == "SELL"` is `¬ last_action = some .SELL`
(`None == "SELL"` is false, so a missing last action passes the guard). -/
def macd_decision (current_side : PosSide) (current_qty : Int) (sig : MacdSignal)
    (last_action : Option TAction) (shares_per_trade : Int) :
    Option TAction × Int :=
  match current_side with
  | .NONE =>
    if sig.macd_position = some .ABOVE then
      (some .BUY, shares_per_trade)
    else if sig.macd_position = some .BELOW then
      (some .SELL, shares_per_trade)
    else (none, 0)
  | .LONG =>
    if sig.crossunder then
      (some .SELL, current_qty + shares_per_trade)
    else if sig.macd_position = some .BELOW ∧ ¬ last_action = some .SELL then
      (some .SELL, current_qty + shares_per_trade)
    else (none, 0)
  | .SHORT =>
    if sig.crossover then
      (some .BUY, |current_qty| + shares_per_trade)
    else if sig.macd_position = some .ABOVE ∧ ¬ last_action = some .BUY then
      (some .BUY, |current_qty| + shares_per_trade)
    else (none, 0)

/-- `side = OrderSide.BUY if action == "BUY" else OrderSide.SELL`
(line 449 of `realtime_macd_trader.py`). -/
def actionSide : TAction → Side
  | .BUY => .buy
  | .SELL => .sell

/-- `RealTimeMACDTrader.process_macd_signal` as a state transition.
Inputs that the Python method obtains from collaborators are parameters:
the signal dict, the broker position (`get_current_position`), the result
of the `place_order` call (`none` when order placement failed or was
rejected, i.e. `place_order` returned `None`), and the current time token.
Output: the new trading state, the order request submitted (side and
quantity; `none` when the method never reached `place_order`), and the
returned boolean. -/
def process_macd_signal (st : TradingState) (sig : MacdSignal) (current_qty : Int)
    (current_side : PosSide) (shares_per_trade : Int) (orderResult : Option Nat)
    (now : Nat) : TradingState × Option (Side × Int) × Bool :=
  if sig.macd_position = none then (st, none, false)
  else
    match macd_decision current_side current_qty sig st.last_action shares_per_trade with
    | (none, _) => (st, none, false)
    | (some a, qty) =>
      if 0 < qty then
        match orderResult with
        | none => (st, some (actionSide a, qty), false)
        | some _ =>
          (⟨if a = .BUY then .LONG else .SHORT,
            if a = .BUY then qty else -qty,
            some a, some now⟩,
           some (actionSide a, qty), true)
      else (st, none, false)

/-- One iteration of the `while True` loop in `RealTimeMACDTrader.run`
(lines 482–499): when `get_latest_quote()` returns no data the whole body
is skipped; otherwise the quote is recorded and `process_macd_signal` runs. -/
def run_tick (st : TradingState) (quote : Option ℚ) (sig : MacdSignal)
    (current_qty : Int) (current_side : PosSide) (shares_per_trade : Int)
    (orderResult : Option Nat) (now : Nat) :
    TradingState × Option (Side × Int) × Bool :=
  match quote with
  | none => (st, none, false)
  | some _ =>
    process_macd_signal st sig current_qty current_side shares_per_trade orderResult now

/-! ## Session gate (`is_market_hours` … `is_overnight`, lines 311–375) -/

/-- A wall-clock instant at the resolution the session predicates read:
`weekday()` (Monday = 0 … Sunday = 6), `hour`, `minute`.  The Python code
compares full datetimes against bounds whose seconds/microseconds are
zeroed, so minute resolution is exact for these predicates. -/
structure DateTime where
  weekday : Nat
  hour : Nat
  minute : Nat
  deriving DecidableEq, Repr

/-- Minutes since midnight. -/
def minuteOfDay (dt : DateTime) : Nat := dt.hour * 60 + dt.minute

/-- `RealTimeMACDTrader.is_market_hours`: weekday and 09:30 ≤ t < 16:00. -/
def is_market_hours (dt : DateTime) : Bool :=
  if 4 < dt.weekday then false
  else decide (9 * 60 + 30 ≤ minuteOfDay dt ∧ minuteOfDay dt < 16 * 60)

/-- `RealTimeMACDTrader.is_pre_market`: weekday and 04:00 ≤ t < 09:30. -/
def is_pre_market (dt : DateTime) : Bool :=
  if 4 < dt.weekday then false
  else decide (4 * 60 ≤ minuteOfDay dt ∧ minuteOfDay dt < 9 * 60 + 30)

/-- `RealTimeMACDTrader.is_after_hours`: weekday and 16:00 ≤ t < 20:00. -/
def is_after_hours (dt : DateTime) : Bool :=
  if 4 < dt.weekday then false
  else decide (16 * 60 ≤ minuteOfDay dt ∧ minuteOfDay dt < 20 * 60)

/-- `RealTimeMACDTrader.is_overnight` (lines 357–375): hour ≥ 20 requires
`weekday() < 4` (Mon–Thu night), hour < 4 requires `weekday() <= 4`
(Mon–Fri early morning), anything else is false. -/
def is_overnight (dt : DateTime) : Bool :=
  if 20 ≤ dt.hour then decide (dt.weekday < 4)
  else if dt.hour < 4 then decide (dt.weekday ≤ 4)
  else false

/-! ## Pricing policy (inside `place_order`, lines 174–243) -/

/-- `spread_percentage = (spread / bid_price) * 100 if bid_price > 0 else 0`
(line 184). -/
def spread_percentage (bid ask : ℚ) : ℚ :=
  if 0 < bid then (ask - bid) / bid * 100 else 0

/-- Python's `round` to the nearest integer: round half to even. -/
def roundHalfEven (x : ℚ) : ℤ :=
  if x - ⌊x⌋ < 1 / 2 then ⌊x⌋
  else if 1 / 2 < x - ⌊x⌋ then ⌊x⌋ + 1
  else if ⌊x⌋ % 2 = 0 then ⌊x⌋ else ⌊x⌋ + 1

/-- Python's `round(x, 2)`: round to two decimal places. -/
def round2 (x : ℚ) : ℚ := (roundHalfEven (x * 100) : ℚ) / 100

/-- The two extended trading sessions that the limit-price computation
distinguishes (`is_overnight` versus pre-market/after-hours). -/
inductive ExtSession
  | overnight
  | extendedHrs
  deriving DecidableEq, Repr

/-- The buffer percentage of `place_order` (lines 190–209):
overnight `min(max(1.0, spread_percentage), 3.0)`, extended hours
`min(max(0.5, spread_percentage/2), 1.5)`; the code computes the same
expression in its BUY and SELL arms. -/
def buffer_percentage (bid ask : ℚ) (session : ExtSession) : ℚ :=
  match session with
  | .overnight => min (max 1 (spread_percentage bid ask)) 3
  | .extendedHrs => min (max (1 / 2) (spread_percentage bid ask / 2)) (3 / 2)

/-- The limit price computed by `place_order` from the monitor quote:
BUY `round(ask_price * (1 + buffer_percentage/100), 2)`,
SELL `round(bid_price * (1 - buffer_percentage/100), 2)`. -/
def compute_limit_price (side : Side) (bid ask : ℚ) (session : ExtSession) : ℚ :=
  match side with
  | .buy => round2 (ask * (1 + buffer_percentage bid ask session / 100))
  | .sell => round2 (bid * (1 - buffer_percentage bid ask session / 100))

/-- Modelled from the spec: `clamp(x, lo, hi)`, the spec's description of
the buffer computation, to be compared with the code's
`min(max(lo, x), hi)`. -/
def clampSpec (x lo hi : ℚ) : ℚ := min (max x lo) hi

/-! ## Order placement (`place_order`, lines 121–267) -/

/-- Order type of the request object built by `place_order`
(`MarketOrderRequest` or `LimitOrderRequest`). -/
inductive OrderType
  | market
  | limit
  deriving DecidableEq, Repr

/-- The order request `place_order` submits.  A `MarketOrderRequest`
carries no limit price and no extended-hours flag; the
`LimitOrderRequest` built here always sets `extended_hours=True`. -/
structure OrderReq where
  side : Side
  qty : Int
  order_type : OrderType
  limit_price : Option ℚ
  extended_hours : Bool
  deriving DecidableEq, Repr

/-- The two configuration flags read from the environment
(`EXTENDED_HOURS`, `OVERNIGHT_TRADING`). -/
structure TraderConfig where
  extended_hours : Bool
  overnight_trading : Bool
  deriving DecidableEq, Repr

/-- The limit price the extended/overnight path of `place_order` settles on
(lines 176–230): the caller-supplied price if given; otherwise the price
computed from the monitor's last quote (overnight or extended-hours
buffer, chosen by `is_overnight`); otherwise the Alpaca fallback quote
with a fixed 1% buffer; `none` when no quote is available at all (the
routine then abstains). -/
def limit_price_choice (side : Side) (limit_price : Option ℚ)
    (monitor_quote api_quote : Option (ℚ × ℚ)) (is_on : Bool) : Option ℚ :=
  match limit_price with
  | some p => some p
  | none =>
    match monitor_quote with
    | some (bid, ask) =>
      some (compute_limit_price side bid ask
        (if is_on then .overnight else .extendedHrs))
    | none =>
      match api_quote with
      | some (bid, ask) =>
        some (match side with
          | .buy => round2 (ask * (101 / 100))
          | .sell => round2 (bid * (99 / 100)))
      | none => none

/-- The `use_extended_hours or is_overnight` path of `place_order`
(lines 161–243 and the submit at 254–267): bail out when the account is
not eligible, otherwise build a `LimitOrderRequest` with the chosen limit
price and `extended_hours=True` and submit it.  The symbol-eligibility
component only logs a warning and does not gate. -/
def place_order_ext_path (side : Side) (qty : Int) (limit_price : Option ℚ)
    (monitor_quote api_quote : Option (ℚ × ℚ)) (is_on : Bool)
    (account_eligible submit_ok : Bool) : Option OrderReq :=
  if !account_eligible then none
  else
    match limit_price_choice side limit_price monitor_quote api_quote is_on with
    | none => none
    | some p => if submit_ok then some ⟨side, qty, .limit, some p, true⟩ else none

/-- `RealTimeMACDTrader.place_order` (lines 121–267).  Collaborator results
are parameters: `limit_price` the caller-supplied price, `monitor_quote`
the last `(bid, ask)` row of `quote_monitor.quotes_df` (`none` when the
frame is empty), `api_quote` the Alpaca fallback quote, `account_eligible`
the first component of `check_extended_hours_eligibility` (the symbol
component only logs a warning and does not gate), and `submit_ok` whether
`trading_client.submit_order` succeeds (an exception yields `None`).
Returns the submitted request, or `none` when no order was placed.  Note
that the branch to a limit order is taken whenever the `EXTENDED_HOURS`
configuration flag is set or the session is overnight — it does not ask
whether the current session actually is outside regular hours. -/
def place_order (cfg : TraderConfig) (dt : DateTime) (side : Side) (qty : Int)
    (limit_price : Option ℚ) (monitor_quote : Option (ℚ × ℚ))
    (api_quote : Option (ℚ × ℚ)) (account_eligible : Bool) (submit_ok : Bool) :
    Option OrderReq :=
  if !(is_market_hours dt ||
      (cfg.extended_hours && (is_pre_market dt || is_after_hours dt)) ||
      (cfg.overnight_trading && is_overnight dt)) then none
  else if cfg.extended_hours || is_overnight dt then
    place_order_ext_path side qty limit_price monitor_quote api_quote
      (is_overnight dt) account_eligible submit_ok
  else
    if submit_ok then some ⟨side, qty, .market, none, false⟩ else none

/-! ## Broker abstraction / failover selector (`src/broker_selector.py`) -/

/-- Broker identifier handled by `switch_to_broker` / `_try_ibkr` /
`_try_alpaca`. -/
inductive BrokerType
  | IBKR
  | ALPACA
  deriving DecidableEq, Repr

/-- Signal action strings consumed by `_execute_ibkr_signal`
(`signal['action']`). -/
inductive SigAction
  | BUY
  | SHORT
  | COVER_AND_BUY
  | SELL_AND_SHORT
  deriving DecidableEq, Repr

/-- The strategy-state record `_execute_ibkr_signal` passes to
`save_strategy_state`: `{last_action, shares, last_signal_time}`. -/
structure StrategyRec where
  last_action : SigAction
  shares : Int
  last_signal_time : Nat
  deriving DecidableEq, Repr

/-- A row of the broker's position list as `_execute_ibkr_signal` reads it
(`p.symbol`, `p.qty`, `p.side` with the side strings `"long"/"short"`). -/
structure PositionRec where
  symbol : String
  qty : Int
  side : String
  deriving DecidableEq, Repr

/-- The behaviour of a connected broker object, as observed through the
delegate calls the selector forwards.  Opaque payloads are tokens;
`realtime = none` models the delegate raising, and `place_order_result`
is what the delegate's `place_market_order` returns (the IBKR
implementation returns `None` instead of raising when placement fails). -/
structure Broker where
  account_info : Nat
  positions : List PositionRec
  historical : List ℚ
  realtime : Option (List ℚ)
  place_order_result : Option Nat
  clock_is_open : Bool
  strategy_state : Option StrategyRec
  paper : Bool
  deriving DecidableEq, Repr

/-- The four connection fields of `BrokerSelector`
(`current_broker`, `broker_type`, `trading_client`, `data_client`);
the two client handles are opaque tokens. -/
structure SelState where
  current_broker : Option Broker
  broker_type : Option BrokerType
  trading_client : Option Nat
  data_client : Option Nat
  deriving DecidableEq, Repr

/-- The `ConnectionError("No broker connected")` raised by the guarded
delegated operations. -/
inductive SelError
  | NoBrokerConnected
  deriving DecidableEq, Repr

/-- The fully disconnected selector state (all four fields `None`). -/
def disconnected : SelState := ⟨none, none, none, none⟩

/-- `BrokerSelector.is_connected`. -/
def is_connected (s : SelState) : Bool := s.current_broker.isSome

/-- `BrokerSelector.get_account_info`. -/
def get_account_info (s : SelState) : Except SelError Nat :=
  match s.current_broker with
  | none => .error .NoBrokerConnected
  | some b => .ok b.account_info

/-- `BrokerSelector.get_all_positions`. -/
def get_all_positions (s : SelState) : Except SelError (List PositionRec) :=
  match s.current_broker with
  | none => .error .NoBrokerConnected
  | some b => .ok b.positions

/-- `BrokerSelector.get_historical_data`. -/
def get_historical_data (s : SelState) (_symbol : String)
    (_timeframe : Option String) (_limit : Nat) : Except SelError (List ℚ) :=
  match s.current_broker with
  | none => .error .NoBrokerConnected
  | some b => .ok b.historical

/-- An empty `pandas.DataFrame`, as a frame with no rows. -/
def emptyFrame : List ℚ := []

/-- `BrokerSelector.get_realtime_data` (lines 261–352): Yahoo Finance is
tried first, before any broker check; `yahoo` is the frame that path
produces (`none` when it fails or its history is empty).  Only on a Yahoo
failure does the code fall back to the broker, and that fallback sits in a
`try` whose `except` returns an empty frame — so the `ConnectionError`
raised when no broker is connected is caught internally and the caller
sees `pd.DataFrame()`, never an error. -/
def get_realtime_data (s : SelState) (yahoo : Option (List ℚ)) :
    Except SelError (List ℚ) :=
  match yahoo with
  | some d => .ok d
  | none =>
    match s.current_broker with
    | none => .ok emptyFrame
    | some b =>
      match b.realtime with
      | some d => .ok d
      | none => .ok emptyFrame

/-- `BrokerSelector.place_market_order`: guarded delegation; the value is
whatever the broker's own `place_market_order` returns (possibly `None`). -/
def place_market_order (s : SelState) (_symbol : String) (_qty : Int)
    (_side : Side) (_extended_hours : Option Bool) :
    Except SelError (Option Nat) :=
  match s.current_broker with
  | none => .error .NoBrokerConnected
  | some b => .ok b.place_order_result

/-- `BrokerSelector.get_clock`. -/
def get_clock (s : SelState) : Except SelError Bool :=
  match s.current_broker with
  | none => .error .NoBrokerConnected
  | some b => .ok b.clock_is_open

/-- `BrokerSelector.save_strategy_state`. -/
def save_strategy_state (s : SelState) (_symbol _strategy_name : String)
    (_state_data : StrategyRec) : Except SelError Unit :=
  match s.current_broker with
  | none => .error .NoBrokerConnected
  | some _ => .ok ()

/-- `BrokerSelector.get_strategy_state`. -/
def get_strategy_state (s : SelState) (_symbol _strategy_name : String) :
    Except SelError (Option StrategyRec) :=
  match s.current_broker with
  | none => .error .NoBrokerConnected
  | some b => .ok b.strategy_state

/-- `BrokerSelector.is_paper_trading`. -/
def is_paper_trading (s : SelState) : Except SelError Bool :=
  match s.current_broker with
  | none => .error .NoBrokerConnected
  | some b => .ok b.paper

/-- What `_try_ibkr` / `_try_alpaca` install on success: the broker object
and the two client handles. -/
structure ConnResult where
  broker : Broker
  trading_client : Nat
  data_client : Nat
  deriving DecidableEq, Repr

/-- `BrokerSelector.switch_to_broker` (lines 144–184).  `connect_result` is
the outcome of the `_try_ibkr` / `_try_alpaca` attempt for `target`
(`none` = connection failed); `teardown_raises` records whether the old
broker's `disconnect()` raised — the `try/except: pass` swallows it, so
the parameter is never consulted.  The four fields are cleared inside
`if self.current_broker:`, so they are reassigned only when a broker was
connected.  Returns the new state and the boolean result. -/
def switch_to_broker (s : SelState) (target : BrokerType)
    (connect_result : Option ConnResult) (teardown_raises : Bool) :
    SelState × Bool :=
  if some target = s.broker_type then (s, true)
  else
    let s1 := if s.current_broker.isSome then disconnected else s
    match connect_result with
    | some r =>
      (⟨some r.broker, some target, some r.trading_client, some r.data_client⟩, true)
    | none => (s1, false)

/-- What one `_execute_ibkr_signal` call did: the `(side, qty, returned id)`
of each `place_market_order` call it made, and the record passed to
`save_strategy_state` (`none` when no save happened). -/
structure ExecOutcome where
  orders : List (Side × Int × Option Nat)
  saved : Option StrategyRec
  deriving DecidableEq, Repr

/-- `UnifiedTradingSystem._execute_ibkr_signal` (lines 675–720).  When no
broker is connected, the first delegated call raises `ConnectionError`,
which the surrounding `except` catches, so nothing is placed or saved.
With a broker connected, the return value of each `place_market_order`
call is IGNORED (it is not inspected anywhere), and `save_strategy_state`
runs unconditionally afterwards with
`{last_action: action, shares, last_signal_time: now}`. -/
def execute_ibkr_signal (s : SelState) (symbol : String)
    (action : Option SigAction) (shares : Int) (now : Nat) : ExecOutcome :=
  match action with
  | none => ⟨[], none⟩
  | some a =>
    match s.current_broker with
    | none => ⟨[], none⟩
    | some b =>
      let r := b.place_order_result
      let orders : List (Side × Int × Option Nat) :=
        match a with
        | .BUY => [(.buy, shares, r)]
        | .SHORT => [(.sell, shares, r)]
        | .COVER_AND_BUY =>
          match b.positions.find? (fun p => p.symbol == symbol) with
          | some p =>
            if p.side == "short" then [(.buy, p.qty, r), (.buy, shares, r)]
            else [(.buy, shares, r)]
          | none => [(.buy, shares, r)]
        | .SELL_AND_SHORT =>
          match b.positions.find? (fun p => p.symbol == symbol) with
          | some p =>
            if p.side == "long" then [(.sell, p.qty, r), (.sell, shares, r)]
            else [(.sell, shares, r)]
          | none => [(.sell, shares, r)]
      ⟨orders, some ⟨a, shares, now⟩⟩

/-- The per-symbol body of the main loop in
`_run_ibkr_continuous_strategy` (lines 619–652): fetch real-time data; if
the frame is empty, log and `continue` (no order, no state write);
otherwise generate signals and, when the latest signal carries an action,
run `_execute_ibkr_signal`.  `signalAction` is the action of the latest
generated signal (`none` when the signal frame is empty or the action
string is empty). -/
def ibkr_symbol_tick (s : SelState) (symbol : String) (realtime : List ℚ)
    (signalAction : Option SigAction) (shares : Int) (now : Nat) : ExecOutcome :=
  if realtime.isEmpty then ⟨[], none⟩
  else
    match signalAction with
    | none => ⟨[], none⟩
    | some a => execute_ibkr_signal s symbol (some a) shares now

/-- A sample connected broker for concrete instances: its
`place_market_order` delegate yields no order (`None`) and its
`get_realtime_data` delegate raises. -/
def rejectingBroker : Broker :=
  ⟨0, [], [], none, none, true, none, true⟩

/-- A selector state connected to IBKR through `rejectingBroker`. -/
def connectedIBKR : SelState :=
  ⟨some rejectingBroker, some .IBKR, some 0, some 0⟩

/-! ## Theorems for the claims -/

/-- Claim C1: while LONG with quantity q and shares_per_trade s, a
crossunder — or a BELOW MACD position with last action different from
SELL — decides SELL with quantity q + s.  (In particular
`decide(LONG, 100, BELOW/true/true, BUY, 100) = (SELL, 200)`; see the
witness.) -/
theorem C1_long_flip_to_sell (q s : Int) (sig : MacdSignal) (la : Option TAction)
    (h : sig.crossunder = true ∨
      (sig.macd_position = some .BELOW ∧ la ≠ some .SELL)) :
    macd_decision .LONG q sig la s = (some .SELL, q + s) := by
  rcases h with h | ⟨h1, h2⟩
  · simp [macd_decision, h]
  · cases hc : sig.crossunder with
    | true => simp [macd_decision, hc]
    | false => simp [macd_decision, hc, h1, h2]

/-- Witness for C1: the concrete instance from the spec,
`decide(LONG, 100, {BELOW, crossover, crossunder}, "BUY", 100) = (SELL, 200)`. -/
theorem C1_witness :
    (⟨some .BELOW, true, true⟩ : MacdSignal).crossunder = true ∧
    macd_decision .LONG 100 ⟨some .BELOW, true, true⟩ (some .BUY) 100 =
      (some .SELL, 200) := by
  refine ⟨rfl, ?_⟩
  have h := C1_long_flip_to_sell 100 100 ⟨some .BELOW, true, true⟩ (some .BUY)
    (Or.inl rfl)
  norm_num at h
  exact h

/-- Claim C2: from a flat position, an ABOVE MACD position decides a BUY of
shares_per_trade and a BELOW MACD position decides a SELL of
shares_per_trade — the code's label for the order that opens a short —
regardless of the crossover/crossunder flags and of the last action;
moreover executing that SELL from a flat position (successful order,
current quantity 0) leaves the trader in a SHORT position of s shares
(`position_shares = -s`), i.e. the order opens a short of s shares. -/
theorem C2_flat_position_opens (q s : Int) (sig : MacdSignal) (la : Option TAction) :
    (sig.macd_position = some .ABOVE →
      macd_decision .NONE q sig la s = (some .BUY, s)) ∧
    (sig.macd_position = some .BELOW →
      macd_decision .NONE q sig la s = (some .SELL, s) ∧
      (0 < s → ∀ (st : TradingState) (oid now : Nat),
        process_macd_signal st sig 0 .NONE s (some oid) now =
          (⟨.SHORT, -s, some .SELL, some now⟩, some (.sell, s), true))) := by
  constructor
  · intro h
    simp [macd_decision, h]
  · intro h
    have hd : ∀ la' : Option TAction,
        macd_decision .NONE 0 sig la' s = (some .SELL, s) := by
      intro la'
      simp [macd_decision, h]
    refine ⟨by simp [macd_decision, h], fun hs st oid now => ?_⟩
    simp [process_macd_signal, h, hd st.last_action, hs, actionSide]

/-- Witness for C2: the concrete instance from the spec,
`decide(NONE, 0, {ABOVE, false, false}, None, 100) = (BUY, 100)`. -/
theorem C2_witness :
    macd_decision .NONE 0 ⟨some .ABOVE, false, false⟩ none 100 =
      (some .BUY, 100) :=
  (C2_flat_position_opens 0 100 ⟨some .ABOVE, false, false⟩ none).1 rfl

/-- Claim C5: the overnight classification: for hour ≥ 20 it holds exactly
for weekday < 4 (Mon–Thu night), for hour < 4 exactly for weekday ≤ 4
(Mon–Fri early morning), and never for 4 ≤ hour < 20. -/
theorem C5_overnight_classification (dt : DateTime) :
    (20 ≤ dt.hour → (is_overnight dt = true ↔ dt.weekday < 4)) ∧
    (dt.hour < 4 → (is_overnight dt = true ↔ dt.weekday ≤ 4)) ∧
    (4 ≤ dt.hour → dt.hour < 20 → is_overnight dt = false) := by
  unfold is_overnight
  refine ⟨fun h => ?_, fun h => ?_, fun h1 h2 => ?_⟩
  · rw [if_pos h]
    simp
  · rw [if_neg (by omega), if_pos h]
    simp
  · rw [if_neg (by omega), if_neg (by omega)]

/-- Witness for C5: Monday 21:00 is overnight, Friday 21:00 is not,
Friday 03:00 is overnight, Saturday 03:00 is not, Wednesday noon is not. -/
theorem C5_witness :
    is_overnight ⟨0, 21, 0⟩ = true ∧ is_overnight ⟨4, 21, 0⟩ = false ∧
    is_overnight ⟨4, 3, 0⟩ = true ∧ is_overnight ⟨5, 3, 0⟩ = false ∧
    is_overnight ⟨2, 12, 0⟩ = false := by
  refine ⟨?_, ?_, ?_, ?_, ?_⟩
  · exact ((C5_overnight_classification ⟨0, 21, 0⟩).1 (by norm_num)).mpr (by norm_num)
  · have h := (C5_overnight_classification ⟨4, 21, 0⟩).1 (by norm_num)
    simp at h
    exact h
  · exact ((C5_overnight_classification ⟨4, 3, 0⟩).2.1 (by norm_num)).mpr (by norm_num)
  · have h := (C5_overnight_classification ⟨5, 3, 0⟩).2.1 (by norm_num)
    simp at h
    exact h
  · exact (C5_overnight_classification ⟨2, 12, 0⟩).2.2 (by norm_num) (by norm_num)

/-- Claim C7: a tick on which the price/quote collaborator returns no data
submits no order and performs no state write: the realtime trader's loop
body with no quote leaves the trading state unchanged, attempts no order
and reports no trade; the IBKR continuous loop's per-symbol body with an
empty real-time frame places no order and saves no strategy state. -/
theorem C7_skip_tick_without_data (st : TradingState) (sig : MacdSignal)
    (q : Int) (side : PosSide) (spt : Int) (orderResult : Option Nat) (now : Nat)
    (s : SelState) (symbol : String) (sa : Option SigAction) (sh : Int) (n : Nat) :
    run_tick st none sig q side spt orderResult now = (st, none, false) ∧
    ibkr_symbol_tick s symbol [] sa sh n = ⟨[], none⟩ :=
  ⟨rfl, rfl⟩

/-- Claim C3: for bid > 0, the spread percentage is (ask−bid)/bid·100; the
buffer is that value clamped to [1%, 3%] in the overnight session and the
halved value clamped to [0.5%, 1.5%] in pre-market/after-hours; the BUY
limit is ask·(1+buffer) and the SELL limit bid·(1−buffer), each rounded to
two decimals; and a BUY at bid 99 / ask 100 overnight prices strictly
above 100. -/
theorem C3_limit_pricing (bid ask : ℚ) (h : 0 < bid) :
    spread_percentage bid ask = (ask - bid) / bid * 100 ∧
    buffer_percentage bid ask .overnight =
      clampSpec (spread_percentage bid ask) 1 3 ∧
    buffer_percentage bid ask .extendedHrs =
      clampSpec (spread_percentage bid ask / 2) (1 / 2) (3 / 2) ∧
    (∀ session : ExtSession,
      compute_limit_price .buy bid ask session =
        round2 (ask * (1 + buffer_percentage bid ask session / 100)) ∧
      compute_limit_price .sell bid ask session =
        round2 (bid * (1 - buffer_percentage bid ask session / 100))) ∧
    100 < compute_limit_price .buy 99 100 .overnight := by
  refine ⟨by rw [spread_percentage, if_pos h], ?_, ?_, fun session => ⟨rfl, rfl⟩, ?_⟩
  · rw [buffer_percentage, clampSpec, max_comm]
  · rw [buffer_percentage, clampSpec, max_comm]
  · have h1 : buffer_percentage 99 100 .overnight = 100 / 99 := by
      norm_num [buffer_percentage, spread_percentage]
    have h2 : (100 : ℚ) * (1 + (100 / 99) / 100) * 100 = 1000000 / 99 := by
      norm_num
    have h3 : ⌊(1000000 / 99 : ℚ)⌋ = 10101 := by norm_num
    have h4 : roundHalfEven ((100 : ℚ) * (1 + (100 / 99) / 100) * 100) = 10101 := by
      rw [h2, roundHalfEven, h3]
      norm_num
    rw [compute_limit_price, round2, h1, h4]
    norm_num

/-- Witness for C3: the concrete instance at bid 99, ask 100. -/
theorem C3_witness :
    (0 : ℚ) < 99 ∧ 100 < compute_limit_price .buy 99 100 .overnight :=
  ⟨by norm_num, (C3_limit_pricing 99 100 (by norm_num)).2.2.2.2⟩

/-- Any order the extended/overnight path of `place_order` submits is a
limit order with a limit price and the extended-hours flag. -/
theorem ext_path_shape (side : Side) (qty : Int) (lp : Option ℚ)
    (mq aq : Option (ℚ × ℚ)) (is_on elig ok : Bool) (o : OrderReq)
    (ho : place_order_ext_path side qty lp mq aq is_on elig ok = some o) :
    o.order_type = .limit ∧ o.extended_hours = true ∧ o.limit_price.isSome = true := by
  unfold place_order_ext_path at ho
  split at ho
  · exact Option.noConfusion ho
  · split at ho
    · exact Option.noConfusion ho
    · split at ho
      · cases ho
        exact ⟨rfl, rfl, rfl⟩
      · exact Option.noConfusion ho

/-- Claim C4: outside regular market hours, every order `place_order`
submits is a LIMIT order carrying a limit price and the extended-hours
flag — no MARKET order is submitted outside regular session hours. -/
theorem C4_limit_outside_rth (cfg : TraderConfig) (dt : DateTime) (side : Side)
    (qty : Int) (lp : Option ℚ) (mq aq : Option (ℚ × ℚ)) (elig ok : Bool)
    (o : OrderReq) (hmh : is_market_hours dt = false)
    (ho : place_order cfg dt side qty lp mq aq elig ok = some o) :
    o.order_type = .limit ∧ o.extended_hours = true ∧ o.limit_price.isSome = true := by
  unfold place_order at ho
  split at ho
  · exact Option.noConfusion ho
  · rename_i hcan
    split at ho
    · exact ext_path_shape _ _ _ _ _ _ _ _ _ ho
    · rename_i hext
      exfalso
      simp only [Bool.not_eq_true, Bool.or_eq_false_iff] at hext
      simp [hmh, hext.1, hext.2] at hcan

/-- Witness for C4: a Monday 20:30 overnight order with a caller-supplied
limit price is submitted as a limit order. -/
theorem C4_witness :
    is_market_hours ⟨0, 20, 30⟩ = false ∧
    place_order ⟨false, true⟩ ⟨0, 20, 30⟩ .buy 100 (some 50) none none true true =
      some ⟨.buy, 100, .limit, some 50, true⟩ ∧
    (OrderReq.mk .buy 100 .limit (some 50) true).order_type = .limit ∧
    (OrderReq.mk .buy 100 .limit (some 50) true).extended_hours = true ∧
    (OrderReq.mk .buy 100 .limit (some 50) true).limit_price.isSome = true := by
  refine ⟨by decide, by decide, ?_⟩
  exact C4_limit_outside_rth ⟨false, true⟩ ⟨0, 20, 30⟩ .buy 100 (some 50) none none
    true true _ (by decide) (by decide)

/-- Claim C9: during regular market hours with the `EXTENDED_HOURS`
configuration flag enabled, `place_order` never submits a market order —
anything it submits is a limit order with the extended-hours attribute —
and with a monitor quote available, an eligible account and a successful
submission it does submit such a limit order: the order type is selected
by the configuration flag (or the overnight session), not by whether the
session is actually outside regular hours. -/
theorem C9_flag_forces_limit_in_rth (cfg : TraderConfig) (dt : DateTime)
    (side : Side) (qty : Int) (lp : Option ℚ) (mq aq : Option (ℚ × ℚ))
    (elig ok : Bool) (hmh : is_market_hours dt = true)
    (hext : cfg.extended_hours = true) :
    (∀ o : OrderReq, place_order cfg dt side qty lp mq aq elig ok = some o →
      o.order_type = .limit ∧ o.extended_hours = true ∧ o.limit_price.isSome = true) ∧
    (∀ bid ask : ℚ, ∃ p : ℚ,
      place_order cfg dt side qty lp (some (bid, ask)) aq true true =
        some ⟨side, qty, .limit, some p, true⟩) := by
  constructor
  · intro o ho
    unfold place_order at ho
    split at ho
    · exact Option.noConfusion ho
    · split at ho
      · exact ext_path_shape _ _ _ _ _ _ _ _ _ ho
      · rename_i hx
        simp [hext] at hx
  · intro bid ask
    have hpo : place_order cfg dt side qty lp (some (bid, ask)) aq true true =
        place_order_ext_path side qty lp (some (bid, ask)) aq (is_overnight dt)
          true true := by
      unfold place_order
      rw [if_neg (by simp [hmh]), if_pos (by simp [hext])]
    rcases lp with _ | p
    · exact ⟨compute_limit_price side bid ask
        (if is_overnight dt then .overnight else .extendedHrs),
        by rw [hpo]; simp [place_order_ext_path, limit_price_choice]⟩
    · exact ⟨p, by rw [hpo]; simp [place_order_ext_path, limit_price_choice]⟩

/-- Witness for C9: Monday 10:00, extended-hours flag on, monitor quote
(99, 100) — a limit order is submitted during regular hours. -/
theorem C9_witness :
    is_market_hours ⟨0, 10, 0⟩ = true ∧
    (⟨true, true⟩ : TraderConfig).extended_hours = true ∧
    (∃ p : ℚ, place_order ⟨true, true⟩ ⟨0, 10, 0⟩ .buy 100 none (some (99, 100))
      none true true = some ⟨.buy, 100, .limit, some p, true⟩) :=
  ⟨by decide, rfl,
    (C9_flag_forces_limit_in_rth ⟨true, true⟩ ⟨0, 10, 0⟩ .buy 100 none
      (some (99, 100)) none true true (by decide) rfl).2 99 100⟩

/-- Claim C6 (the code violates it in `_execute_ibkr_signal`): with a
connected broker whose `place_market_order` yields no order (`None`,
the IBKR implementation's behaviour on a rejected or failed placement),
`_execute_ibkr_signal` still calls `save_strategy_state`, recording
`{last_action: BUY, shares: 100}` — a phantom fill — because the return
value of the order call is never inspected. -/
theorem C6_phantom_fill_on_rejected_order :
    execute_ibkr_signal connectedIBKR "NVDA" (some .BUY) 100 7 =
      ⟨[(.buy, 100, none)], some ⟨.BUY, 100, 7⟩⟩ ∧
    rejectingBroker.place_order_result = none ∧
    (execute_ibkr_signal connectedIBKR "NVDA" (some .BUY) 100 7).saved ≠ none := by
  refine ⟨by decide, rfl, by decide⟩

/-- Counterexample for C8: with no broker connected and Yahoo Finance
failing, `get_realtime_data` returns an empty data frame instead of
failing with the no-broker-connected error — the internal
`ConnectionError` is caught and swallowed. -/
theorem C8_counterexample :
    get_realtime_data disconnected none = Except.ok emptyFrame ∧
    get_realtime_data disconnected none ≠
      Except.error SelError.NoBrokerConnected :=
  ⟨rfl, by simp [get_realtime_data, disconnected]⟩

/-- Claim C8 as amended: while no broker is connected, every guarded
delegated operation (`get_account_info`, `get_all_positions`,
`get_historical_data`, `place_market_order`, `get_clock`,
`save_strategy_state`, `get_strategy_state`, `is_paper_trading`) fails
with the no-broker-connected error; `get_realtime_data` alone does not —
it serves the Yahoo Finance data when available and otherwise returns an
empty frame without raising. -/
theorem C8_guarded_ops_raise (s : SelState) (h : s.current_broker = none) :
    get_account_info s = .error .NoBrokerConnected ∧
    get_all_positions s = .error .NoBrokerConnected ∧
    (∀ symbol timeframe lim,
      get_historical_data s symbol timeframe lim = .error .NoBrokerConnected) ∧
    (∀ symbol qty side eh,
      place_market_order s symbol qty side eh = .error .NoBrokerConnected) ∧
    get_clock s = .error .NoBrokerConnected ∧
    (∀ symbol name data,
      save_strategy_state s symbol name data = .error .NoBrokerConnected) ∧
    (∀ symbol name,
      get_strategy_state s symbol name = .error .NoBrokerConnected) ∧
    is_paper_trading s = .error .NoBrokerConnected ∧
    (∀ yahoo, get_realtime_data s yahoo = .ok (yahoo.getD emptyFrame)) := by
  refine ⟨?_, ?_, fun _ _ _ => ?_, fun _ _ _ _ => ?_, ?_, fun _ _ _ => ?_,
    fun _ _ => ?_, ?_, fun yahoo => ?_⟩ <;>
    first
      | simp [get_account_info, get_all_positions, get_historical_data,
          place_market_order, get_clock, save_strategy_state, get_strategy_state,
          is_paper_trading, h]
      | cases yahoo <;> simp [get_realtime_data, h, emptyFrame]

/-- Witness for C8's amended claim, at the fully disconnected state. -/
theorem C8_witness :
    disconnected.current_broker = none ∧
    get_account_info disconnected = .error .NoBrokerConnected ∧
    get_realtime_data disconnected (some [5]) = .ok [5] := by
  refine ⟨rfl, (C8_guarded_ops_raise disconnected rfl).1, ?_⟩
  have h := (C8_guarded_ops_raise disconnected rfl).2.2.2.2.2.2.2.2 (some [5])
  simpa using h

/-- Counterexample for C10: after a failed switch (connected to IBKR,
target ALPACA, connection attempt fails) the selector is fully
disconnected and the switch returned False — but not every subsequent
delegated call raises the no-broker-connected error: `get_realtime_data`
returns an empty frame instead of raising. -/
theorem C10_counterexample :
    switch_to_broker connectedIBKR .ALPACA none true = (disconnected, false) ∧
    get_realtime_data (switch_to_broker connectedIBKR .ALPACA none true).1 none =
      Except.ok emptyFrame ∧
    get_realtime_data (switch_to_broker connectedIBKR .ALPACA none true).1 none ≠
      Except.error SelError.NoBrokerConnected := by
  have h : switch_to_broker connectedIBKR .ALPACA none true =
      (disconnected, false) := by decide
  refine ⟨h, by rw [h]; rfl, by rw [h]; simp [get_realtime_data, disconnected]⟩

/-- Claim C10 as amended: a switch to a different broker whose connection
attempt fails returns False and leaves the selector fully disconnected
(all four fields cleared, `is_connected` false) — regardless of whether
tearing down the old connection raised, that error being swallowed — and
every subsequent guarded delegated call (here `get_account_info`,
`place_market_order`, `save_strategy_state`) raises the
no-broker-connected error; `get_realtime_data` alone does not raise. -/
theorem C10_failed_switch_disconnects (s : SelState) (target : BrokerType)
    (tdr : Bool) (hconn : s.current_broker.isSome = true)
    (hdiff : ¬ some target = s.broker_type) :
    switch_to_broker s target none tdr = (disconnected, false) ∧
    is_connected (switch_to_broker s target none tdr).1 = false ∧
    get_account_info (switch_to_broker s target none tdr).1 =
      .error .NoBrokerConnected ∧
    (∀ symbol qty side eh,
      place_market_order (switch_to_broker s target none tdr).1 symbol qty side eh =
        .error .NoBrokerConnected) ∧
    (∀ symbol name data,
      save_strategy_state (switch_to_broker s target none tdr).1 symbol name data =
        .error .NoBrokerConnected) := by
  have hs : switch_to_broker s target none tdr = (disconnected, false) := by
    unfold switch_to_broker
    rw [if_neg hdiff]
    simp [hconn]
  rw [hs]
  exact ⟨rfl, rfl, rfl, fun _ _ _ _ => rfl, fun _ _ _ => rfl⟩

/-- Witness for C10's amended claim: connected to IBKR, switching to
ALPACA while the connection attempt fails, with a teardown error. -/
theorem C10_witness :
    connectedIBKR.current_broker.isSome = true ∧
    ¬ some BrokerType.ALPACA = connectedIBKR.broker_type ∧
    switch_to_broker connectedIBKR .ALPACA none true = (disconnected, false) :=
  ⟨rfl, by decide,
    (C10_failed_switch_disconnects connectedIBKR .ALPACA true rfl (by decide)).1⟩

end AITrade
